import Mathlib

/-!
Verification of the ubipoller poll-extract-publish cycle (src/main.go).

The Go program polls a Ubiquiti ISP-metrics HTTP API, extracts the most
recent latency sample per site series, and republishes one simplified
JSON record per site to an MQTT topic derived from the site id.

This file shallowly embeds the data model and the pure/sequential core
of `main.go`:
  * the JSON data model (`ISPMetrics`, `MetricData`, `Period`,
    `WANData`, `LatencyMetric`),
  * `extractLatestLatencyMetrics` (lines 236-262),
  * `PublishLatency` (lines 359-382) as the publish request it hands to
    the broker client (topic, QoS, retained flag, JSON payload),
  * `GetISPMetrics` (lines 265-296) with the HTTP transport as an
    explicit oracle and the request context made explicit, since the
    request is created with http.NewRequestWithContext,
  * `fetchAndPublishMetrics` (lines 209-233) returning its error result
    together with the trace of publish attempts it makes,
  * the `Run` select loop (lines 192-205) as a function over a finite
    list of wake-up events (timer ticks and the shutdown notification).

Side effects that are pure logging are dropped; everything else is
explicit in the state or the result.
-/

/- ### Data model (src/main.go lines 39-82) -/

/-- WANData (main.go lines 60-70): one WAN measurement sample. Go `int`
fields become `Int`. -/
structure WANData where
  avgLatency : Int
  downloadKbps : Int
  downtime : Int
  ispAsn : String
  ispName : String
  maxLatency : Int
  packetLoss : Int
  uploadKbps : Int
  uptime : Int
  deriving Repr, DecidableEq

/-- PeriodData (main.go lines 56-58): wrapper holding the WAN sample. -/
structure PeriodData where
  wan : WANData
  deriving Repr, DecidableEq

/-- Period (main.go lines 50-54): one time-bucketed sample. -/
structure Period where
  data : PeriodData
  metricTime : String
  version : String
  deriving Repr, DecidableEq

/-- MetricData (main.go lines 43-48): one site series of the envelope. -/
structure MetricData where
  metricType : String
  periods : List Period
  siteId : String
  hostId : String
  deriving Repr, DecidableEq

/-- ISPMetrics (main.go lines 39-41): the top-level API envelope. -/
structure ISPMetrics where
  data : List MetricData
  deriving Repr, DecidableEq

/-- LatencyMetric (main.go lines 73-82): the simplified publish-ready
record. `PublishedAt` is a `time.Time` in Go; modelled as the opaque
string representation of the wall-clock instant. -/
structure LatencyMetric where
  siteId : String
  hostId : String
  timestamp : String
  avgLatency : Int
  maxLatency : Int
  ispName : String
  ispAsn : String
  publishedAt : String
  deriving Repr, DecidableEq

/- ### Latency extractor (main.go lines 236-262) -/

/-- The loop body of extractLatestLatencyMetrics (main.go lines
239-259): walk the series in envelope order; a series with an empty
period list is skipped via continue; otherwise period index 0 is taken
as latest and its fields copied into a fresh LatencyMetric.  The Go
loop calls time.Now() for PublishedAt; the current wall-clock instant
is the explicit parameter `now`. -/
def extractLoop (now : String) : List MetricData → List LatencyMetric
  | [] => []
  | d :: rest =>
    match d.periods with
    | [] => extractLoop now rest
    | latestPeriod :: _ =>
      { siteId := d.siteId
        hostId := d.hostId
        timestamp := latestPeriod.metricTime
        avgLatency := latestPeriod.data.wan.avgLatency
        maxLatency := latestPeriod.data.wan.maxLatency
        ispName := latestPeriod.data.wan.ispName
        ispAsn := latestPeriod.data.wan.ispAsn
        publishedAt := now } :: extractLoop now rest

/-- extractLatestLatencyMetrics (main.go lines 236-262). -/
def extractLatestLatencyMetrics (metrics : ISPMetrics) (now : String) :
    List LatencyMetric :=
  extractLoop now metrics.data

/- ### JSON serialization and the per-site publish (main.go 359-382) -/

/-- A JSON value, as far as json.Marshal of a LatencyMetric needs. -/
inductive Json where
  | str : String → Json
  | int : Int → Json
  | obj : List (String × Json) → Json
  deriving Repr

/-- json.Marshal of a LatencyMetric (main.go line 360), with the field
names given by the struct tags on lines 73-82. -/
def marshalLatencyMetric (m : LatencyMetric) : Json :=
  .obj [("siteId", .str m.siteId),
        ("hostId", .str m.hostId),
        ("timestamp", .str m.timestamp),
        ("avgLatency", .int m.avgLatency),
        ("maxLatency", .int m.maxLatency),
        ("ispName", .str m.ispName),
        ("ispAsn", .str m.ispAsn),
        ("publishedAt", .str m.publishedAt)]

/-- The publish request PublishLatency hands to the broker client
(main.go line 376: client.Publish topic 0 false payload). -/
structure PublishCall where
  topic : String
  qos : Nat
  retained : Bool
  payload : Json
  deriving Repr

/-- PublishLatency (main.go lines 359-382) as the broker call it
issues: topic fmt.Sprintf %s/%s/latency (line 366), QoS 0 and
retained false (line 376), payload json.Marshal of the record
(line 360). Whether the broker accepts the call is the broker
oracle's business, modelled at the call site. -/
def PublishLatency (latencyMetric : LatencyMetric) (baseTopic : String) :
    PublishCall :=
  { topic := baseTopic ++ "/" ++ latencyMetric.siteId ++ "/latency"
    qos := 0
    retained := false
    payload := marshalLatencyMetric latencyMetric }

/- ### Fetcher (main.go lines 265-296) -/

/-- The request context handed down from main (main.go line 129,
context.WithCancel): `cancelled` is whether the shutdown signal has
already cancelled it at the moment an operation consults it. -/
structure Ctx where
  cancelled : Bool
  deriving Repr, DecidableEq

/-- Outcome of one HTTP round trip as the transport would deliver it
absent cancellation: a status code with a body, or a network error. -/
inductive DoResult where
  | ok : Nat → String → DoResult
  | err : String → DoResult
  deriving Repr, DecidableEq

/-- httpClient.Do (main.go line 278) on a request built by
http.NewRequestWithContext ctx (line 268).  Per net/http, a request
carrying a cancelled context is aborted and Do returns an error
wrapping context.Canceled; otherwise the transport outcome stands. -/
def httpDo (ctx : Ctx) (transport : DoResult) : DoResult :=
  if ctx.cancelled then .err ("context canceled") else transport

/-- GetISPMetrics (main.go lines 265-296): perform the request with the
given context, reject any non-200 status (line 284), then decode the
body (lines 289-293).  The JSON decoder is the oracle `decode`. -/
def GetISPMetrics (ctx : Ctx) (transport : DoResult)
    (decode : String → Option ISPMetrics) : Except String ISPMetrics :=
  match httpDo ctx transport with
  | .err msg => .error ("failed to make request: " ++ msg)
  | .ok status body =>
    if status ≠ 200 then
      .error ("API request failed with status " ++ toString status ++ ": " ++ body)
    else
      match decode body with
      | none => .error ("failed to decode response")
      | some metrics => .ok metrics

/- ### One cycle (main.go lines 209-233) -/

/-- The per-record publish loop of fetchAndPublishMetrics (main.go
lines 224-229): publish each record in order; on error, log and
continue with the next record.  The broker oracle says whether each
call succeeds; the result pairs every attempted call with its outcome.
The Go loop body has the request context `ctx` in scope but never
consults it for publishing, so it is an unused parameter here. -/
def publishLoop (ctx : Ctx) (broker : PublishCall → Bool)
    (baseTopic : String) : List LatencyMetric → List (PublishCall × Bool)
  | [] => []
  | latencyMetric :: rest =>
    let call := PublishLatency latencyMetric baseTopic
    (call, broker call) :: publishLoop ctx broker baseTopic rest

/-- Result of one fetch-extract-publish cycle: the error value
fetchAndPublishMetrics returns, and the trace of broker calls it made.
On success the returned count is the extracted-record count len
latencyMetrics that line 231 logs as sites_published. -/
structure CycleResult where
  result : Except String Nat
  attempts : List (PublishCall × Bool)
  deriving Repr

/-- fetchAndPublishMetrics (main.go lines 209-233): fetch, and on fetch
failure return the wrapped error having attempted nothing (line 214);
otherwise extract the latest latency records and publish each one,
returning nil (success) regardless of per-record publish failures
(lines 224-232). -/
def fetchAndPublishMetrics (ctx : Ctx) (transport : DoResult)
    (decode : String → Option ISPMetrics) (broker : PublishCall → Bool)
    (baseTopic : String) (now : String) : CycleResult :=
  match GetISPMetrics ctx transport decode with
  | .error e =>
    { result := .error ("failed to fetch ISP metrics: " ++ e), attempts := [] }
  | .ok metrics =>
    let latencyMetrics := extractLatestLatencyMetrics metrics now
    { result := .ok latencyMetrics.length
      attempts := publishLoop ctx broker baseTopic latencyMetrics }

/- ### Scheduler loop (main.go lines 192-205) -/

/-- One wake-up of the Run select loop: a ticker tick (carrying the
transport outcome and wall-clock instant of the cycle it triggers) or
the ctx.Done shutdown notification. -/
inductive Event where
  | tick : DoResult → String → Event
  | shutdown : Event

/-- The Run main loop (main.go lines 192-205) over a finite schedule of
wake-up events.  Each tick runs one full cycle with the not-yet-
cancelled context and, whether or not the cycle failed, merely logs and
waits again (lines 201-203); the shutdown notification disconnects the
MQTT publisher and returns nil (lines 194-199), so later events are
never seen.  Returns the cycle results in order and whether Disconnect
was invoked. -/
def runLoop (decode : String → Option ISPMetrics) (broker : PublishCall → Bool)
    (baseTopic : String) : List Event → List CycleResult × Bool
  | [] => ([], false)
  | .shutdown :: _ => ([], true)
  | .tick transport now :: rest =>
    let cycle := fetchAndPublishMetrics { cancelled := false } transport decode
      broker baseTopic now
    let later := runLoop decode broker baseTopic rest
    (cycle :: later.1, later.2)

/- ### Auxiliary definitions for the properties -/

/-- The part of a site series that extraction reads: siteId, hostId
and the head of the period list.  Used to state that
extractLatestLatencyMetrics never reads any period index other than 0. -/
def seriesView (d : MetricData) : String × String × Option Period :=
  (d.siteId, d.hostId, d.periods.head?)

/-- Zero out the WAN sample fields that extraction does not publish:
download/upload throughput, downtime, uptime and packet loss.  Two
envelopes differ only in those fields exactly when their scrubbed
envelopes are equal. -/
def scrubWAN (w : WANData) : WANData :=
  { w with downloadKbps := 0, uploadKbps := 0, downtime := 0,
           uptime := 0, packetLoss := 0 }

/-- scrubWAN lifted to a period. -/
def scrubPeriod (p : Period) : Period :=
  { p with data := ⟨scrubWAN p.data.wan⟩ }

/-- scrubWAN lifted to a site series. -/
def scrubSeries (d : MetricData) : MetricData :=
  { d with periods := d.periods.map scrubPeriod }

/-- scrubWAN lifted to a whole envelope. -/
def scrubEnvelope (m : ISPMetrics) : ISPMetrics :=
  ⟨m.data.map scrubSeries⟩

/- ### Concrete sample data for witnesses -/

/-- A concrete WAN sample. -/
def wanA : WANData :=
  ⟨12, 90000, 0, "AS7018", "Example ISP", 34, 0, 11000, 100⟩

/-- A second concrete WAN sample. -/
def wanB : WANData :=
  ⟨7, 80000, 1, "AS701", "Other ISP", 21, 2, 9000, 99⟩

/-- wanA with all non-latency fields changed. -/
def wanAthru : WANData :=
  { wanA with downloadKbps := 1, uploadKbps := 2, downtime := 3,
              uptime := 4, packetLoss := 5 }

/-- A concrete period around wanA. -/
def periodA : Period := ⟨⟨wanA⟩, "2025-10-01T00:00:00Z", "v1"⟩

/-- A concrete period around wanB. -/
def periodB : Period := ⟨⟨wanB⟩, "2025-10-01T00:05:00Z", "v1"⟩

/-- periodA with the non-latency WAN fields changed. -/
def periodAthru : Period := ⟨⟨wanAthru⟩, "2025-10-01T00:00:00Z", "v1"⟩

/-- A series with one period. -/
def seriesA : MetricData := ⟨"5m", [periodA], "site1", "hostA"⟩

/-- A series with the same siteId as seriesA but its own data. -/
def seriesDupA : MetricData := ⟨"5m", [periodB], "site1", "hostB"⟩

/-- A series with an empty period list. -/
def seriesEmpty : MetricData := ⟨"5m", [], "siteE", "hostE"⟩

/-- A series with two periods. -/
def seriesTwo : MetricData := ⟨"5m", [periodA, periodB], "site2", "hostC"⟩

/-- seriesTwo with its non-head periods dropped: same seriesView. -/
def seriesTwoTrunc : MetricData := ⟨"5m", [periodA], "site2", "hostC"⟩

/-- Envelope with two series sharing one siteId. -/
def envDup : ISPMetrics := ⟨[seriesA, seriesDupA]⟩

/-- Envelope with a two-period series. -/
def envTwo : ISPMetrics := ⟨[seriesTwo]⟩

/-- envTwo with the tails of the period lists dropped. -/
def envTwoTrunc : ISPMetrics := ⟨[seriesTwoTrunc]⟩

/-- Envelope built from periodA. -/
def envThru : ISPMetrics := ⟨[⟨"5m", [periodA], "site1", "hostA"⟩]⟩

/-- envThru with the non-latency WAN fields changed. -/
def envThruB : ISPMetrics := ⟨[⟨"5m", [periodAthru], "site1", "hostA"⟩]⟩

/-- A fixed wall-clock instant for witnesses. -/
def now0 : String := "2025-10-01T00:06:00Z"

/-- A decoder oracle that always yields envDup. -/
def decodeDup : String → Option ISPMetrics := fun _ => some envDup

/-- A decoder oracle that always fails. -/
def decodeFail : String → Option ISPMetrics := fun _ => none

/-- A broker oracle that rejects every publish. -/
def brokerDown : PublishCall → Bool := fun _ => false

/-- A broker oracle that accepts every publish. -/
def brokerUp : PublishCall → Bool := fun _ => true

/- ### Claim theorems -/

/-- Claim C6: for every record and base topic, PublishLatency addresses
exactly the topic baseTopic ++ slash ++ siteId ++ slash-latency; the
topic is a function of baseTopic and the record siteId alone, so
changing either changes only the corresponding segment. -/
theorem publishLatency_topic_exact (m : LatencyMetric) (baseTopic : String) :
    (PublishLatency m baseTopic).topic
      = baseTopic ++ "/" ++ m.siteId ++ "/latency" := rfl

/-- Claim C8: every per-site publish hands the broker client the JSON
object serialization of the record with QoS 0 (at most once) and the
retained flag false. -/
theorem publishLatency_qos0_not_retained (m : LatencyMetric) (baseTopic : String) :
    (PublishLatency m baseTopic).qos = 0
    ∧ (PublishLatency m baseTopic).retained = false
    ∧ (PublishLatency m baseTopic).payload
        = Json.obj [("siteId", .str m.siteId),
                    ("hostId", .str m.hostId),
                    ("timestamp", .str m.timestamp),
                    ("avgLatency", .int m.avgLatency),
                    ("maxLatency", .int m.maxLatency),
                    ("ispName", .str m.ispName),
                    ("ispAsn", .str m.ispAsn),
                    ("publishedAt", .str m.publishedAt)] :=
  ⟨rfl, rfl, rfl⟩

/-- Claim C4: within one cycle the publish loop attempts every record
exactly once, in extraction order, and the sequence of attempted calls
does not depend on the broker's accept/reject answers, so earlier
failures never suppress later attempts. -/
theorem publishLoop_attempts_every_record (ctx : Ctx)
    (broker brokerOther : PublishCall → Bool) (baseTopic : String)
    (ms : List LatencyMetric) :
    (publishLoop ctx broker baseTopic ms).map Prod.fst
      = ms.map (fun m => PublishLatency m baseTopic)
    ∧ (publishLoop ctx broker baseTopic ms).map Prod.fst
      = (publishLoop ctx brokerOther baseTopic ms).map Prod.fst := by
  constructor
  · induction ms with
    | nil => rfl
    | cons m rest ih => simp [publishLoop, ih]
  · induction ms with
    | nil => rfl
    | cons m rest ih => simp [publishLoop, ih]

/-- Claim C1: if every site series in the envelope has at least one
period, extraction yields exactly one record per series, positionally
in envelope order (the record siteIds are the series siteIds in
order); duplicate siteIds each keep their own record. -/
theorem extractLatest_one_record_per_series (metrics : ISPMetrics)
    (now : String) (h : ∀ d ∈ metrics.data, d.periods ≠ []) :
    (extractLatestLatencyMetrics metrics now).map (fun r => r.siteId)
      = metrics.data.map (fun d => d.siteId)
    ∧ (extractLatestLatencyMetrics metrics now).length
      = metrics.data.length := by
  have key : ∀ ds : List MetricData, (∀ d ∈ ds, d.periods ≠ []) →
      (extractLoop now ds).map (fun r => r.siteId)
        = ds.map (fun d => d.siteId) := by
    intro ds
    induction ds with
    | nil => intro _; rfl
    | cons d rest ih =>
      intro hds
      rcases hp : d.periods with _ | ⟨p, ps⟩
      · exact absurd hp (hds d (by simp))
      · have htail := ih (fun x hx => hds x (by simp [hx]))
        simp [extractLoop, hp, htail]
  refine ⟨key metrics.data h, ?_⟩
  have hlen := congrArg List.length (key metrics.data h)
  simpa using hlen

/-- Claim C1 witness: the two-series envelope envDup, whose series share
one siteId, produces two records with the siteIds in envelope order. -/
theorem extractLatest_one_record_per_series_witness :
    (∀ d ∈ envDup.data, d.periods ≠ [])
    ∧ ((extractLatestLatencyMetrics envDup now0).map (fun r => r.siteId)
        = envDup.data.map (fun d => d.siteId)
      ∧ (extractLatestLatencyMetrics envDup now0).length
        = envDup.data.length) :=
  ⟨by decide, extractLatest_one_record_per_series envDup now0 (by decide)⟩

/-- Claim C7: a series with an empty period list contributes zero
records and leaves the records of every other series unchanged: an
envelope equals, under extraction, the same envelope with that series
removed, and on its own such a series extracts to the empty list. -/
theorem extractLatest_skips_empty_series (now : String)
    (xs ys : List MetricData) (d : MetricData) (hd : d.periods = []) :
    extractLatestLatencyMetrics ⟨xs ++ d :: ys⟩ now
      = extractLatestLatencyMetrics ⟨xs ++ ys⟩ now
    ∧ extractLatestLatencyMetrics ⟨[d]⟩ now = [] := by
  constructor
  · show extractLoop now (xs ++ d :: ys) = extractLoop now (xs ++ ys)
    induction xs with
    | nil => simp [extractLoop, hd]
    | cons x xs ih =>
      rcases hp : x.periods with _ | ⟨p, ps⟩ <;> simp [extractLoop, hp, ih]
  · show extractLoop now [d] = []
    simp [extractLoop, hd]

/-- Claim C7 witness: inserting the empty series seriesEmpty between
the two series of envDup changes nothing, and alone it yields zero
records. -/
theorem extractLatest_skips_empty_series_witness :
    seriesEmpty.periods = []
    ∧ (extractLatestLatencyMetrics ⟨[seriesA] ++ seriesEmpty :: [seriesDupA]⟩ now0
        = extractLatestLatencyMetrics ⟨[seriesA] ++ [seriesDupA]⟩ now0
      ∧ extractLatestLatencyMetrics ⟨[seriesEmpty]⟩ now0 = []) :=
  ⟨rfl, extractLatest_skips_empty_series now0 [seriesA] [seriesDupA] seriesEmpty rfl⟩

/-- Claim C2: extraction copies avgLatency, maxLatency, ispName, ispAsn
and metricTime verbatim from period index 0 of each non-empty series,
and reads no other period index: envelopes agreeing on every series
siteId, hostId and head period extract identically. -/
theorem extractLatest_reads_only_period_zero (now : String)
    (metrics metricsB : ISPMetrics)
    (hview : metrics.data.map seriesView = metricsB.data.map seriesView) :
    extractLatestLatencyMetrics metrics now
      = extractLatestLatencyMetrics metricsB now
    ∧ ∀ (d : MetricData) (ds : List MetricData) (p : Period)
        (ps : List Period), d.periods = p :: ps →
        extractLoop now (d :: ds)
          = { siteId := d.siteId
              hostId := d.hostId
              timestamp := p.metricTime
              avgLatency := p.data.wan.avgLatency
              maxLatency := p.data.wan.maxLatency
              ispName := p.data.wan.ispName
              ispAsn := p.data.wan.ispAsn
              publishedAt := now } :: extractLoop now ds := by
  constructor
  · have key : ∀ ds dsB : List MetricData,
        ds.map seriesView = dsB.map seriesView →
        extractLoop now ds = extractLoop now dsB := by
      intro ds
      induction ds with
      | nil =>
        intro dsB h
        cases dsB with
        | nil => rfl
        | cons e es => simp at h
      | cons d rest ih =>
        intro dsB h
        cases dsB with
        | nil => simp at h
        | cons e es =>
          simp [seriesView] at h
          obtain ⟨⟨hsite, hhost, hhead⟩, htail⟩ := h
          have hrest := ih es htail
          rcases hp : d.periods with _ | ⟨p, ps⟩ <;>
            rcases hq : e.periods with _ | ⟨q, qs⟩
          · simp [extractLoop, hp, hq, hrest]
          · rw [hp, hq] at hhead; simp at hhead
          · rw [hp, hq] at hhead; simp at hhead
          · rw [hp, hq] at hhead
            simp at hhead
            simp [extractLoop, hp, hq, hrest, hsite, hhost, hhead]
    exact key metrics.data metricsB.data hview
  · intro d ds p ps hp
    simp [extractLoop, hp]

/-- Claim C2 witness: envTwo and envTwoTrunc differ exactly in the
non-head periods, agree on every seriesView, and extract identically;
and the cons equation holds for the concrete series seriesTwo. -/
theorem extractLatest_reads_only_period_zero_witness :
    envTwo.data.map seriesView = envTwoTrunc.data.map seriesView
    ∧ (extractLatestLatencyMetrics envTwo now0
        = extractLatestLatencyMetrics envTwoTrunc now0
      ∧ ∀ (d : MetricData) (ds : List MetricData) (p : Period)
          (ps : List Period), d.periods = p :: ps →
          extractLoop now0 (d :: ds)
            = { siteId := d.siteId
                hostId := d.hostId
                timestamp := p.metricTime
                avgLatency := p.data.wan.avgLatency
                maxLatency := p.data.wan.maxLatency
                ispName := p.data.wan.ispName
                ispAsn := p.data.wan.ispAsn
                publishedAt := now0 } :: extractLoop now0 ds) :=
  ⟨by decide, extractLatest_reads_only_period_zero now0 envTwo envTwoTrunc (by decide)⟩

/-- Claim C10: extraction is independent of the non-latency WAN sample
fields: two envelopes whose scrubbed forms coincide (they differ only
in downloadKbps, uploadKbps, downtime, uptime or packetLoss values)
extract, at the same current time, to identical record sequences. -/
theorem extractLatest_ignores_throughput_fields (metrics metricsB : ISPMetrics)
    (now : String) (h : scrubEnvelope metrics = scrubEnvelope metricsB) :
    extractLatestLatencyMetrics metrics now
      = extractLatestLatencyMetrics metricsB now := by
  have scrub : ∀ ds : List MetricData,
      extractLoop now (ds.map scrubSeries) = extractLoop now ds := by
    intro ds
    induction ds with
    | nil => rfl
    | cons d rest ih =>
      rcases hp : d.periods with _ | ⟨p, ps⟩
      · simp [extractLoop, scrubSeries, hp, ih]
      · simp [extractLoop, scrubSeries, scrubPeriod, scrubWAN, hp, ih]
  have hdata : metrics.data.map scrubSeries = metricsB.data.map scrubSeries :=
    congrArg ISPMetrics.data h
  show extractLoop now metrics.data = extractLoop now metricsB.data
  rw [← scrub metrics.data, hdata, scrub metricsB.data]

/-- Claim C10 witness: envThru and envThruB differ exactly in the five
non-latency WAN fields of their one period and extract identically. -/
theorem extractLatest_ignores_throughput_fields_witness :
    scrubEnvelope envThru = scrubEnvelope envThruB
    ∧ extractLatestLatencyMetrics envThru now0
        = extractLatestLatencyMetrics envThruB now0 :=
  ⟨by decide, extractLatest_ignores_throughput_fields envThru envThruB now0 (by decide)⟩

/-- Claim C5: when the fetch step fails, the cycle makes zero publish
attempts and returns the wrapped fetch error, the scheduler logs it and
simply proceeds to the remaining wake-up events; and each failure kind
(non-200 status, network error, decode failure) is such a fetch
failure. -/
theorem fetch_failure_zero_publishes (transport : DoResult)
    (decode : String → Option ISPMetrics) (broker : PublishCall → Bool)
    (baseTopic now : String) (evs : List Event) (e : String)
    (hfail : GetISPMetrics ⟨false⟩ transport decode = .error e) :
    (fetchAndPublishMetrics ⟨false⟩ transport decode broker baseTopic now).attempts = []
    ∧ (fetchAndPublishMetrics ⟨false⟩ transport decode broker baseTopic now).result
        = .error ("failed to fetch ISP metrics: " ++ e)
    ∧ runLoop decode broker baseTopic (.tick transport now :: evs)
        = (fetchAndPublishMetrics ⟨false⟩ transport decode broker baseTopic now
            :: (runLoop decode broker baseTopic evs).1,
           (runLoop decode broker baseTopic evs).2)
    ∧ (∀ status body, status ≠ 200 →
        GetISPMetrics ⟨false⟩ (.ok status body) decode
          = .error ("API request failed with status "
              ++ toString status ++ ": " ++ body))
    ∧ (∀ msg, GetISPMetrics ⟨false⟩ (.err msg) decode
        = .error ("failed to make request: " ++ msg))
    ∧ (∀ body, decode body = none →
        GetISPMetrics ⟨false⟩ (.ok 200 body) decode
          = .error ("failed to decode response")) := by
  refine ⟨?_, ?_, rfl, ?_, ?_, ?_⟩
  · simp [fetchAndPublishMetrics, hfail]
  · simp [fetchAndPublishMetrics, hfail]
  · intro status body hs
    simp [GetISPMetrics, httpDo, hs]
  · intro msg
    rfl
  · intro body hb
    simp [GetISPMetrics, httpDo, hb]

/-- Claim C5 witness: an HTTP 500 cycle attempts no publish, returns
the fetch error, and the scheduler still runs the following tick. -/
theorem fetch_failure_zero_publishes_witness :
    GetISPMetrics ⟨false⟩ (.ok 500 ("server error")) decodeFail
      = .error ("API request failed with status 500: server error")
    ∧ ((fetchAndPublishMetrics ⟨false⟩ (.ok 500 ("server error")) decodeFail
          brokerDown now0 now0).attempts = []
      ∧ (fetchAndPublishMetrics ⟨false⟩ (.ok 500 ("server error")) decodeFail
          brokerDown now0 now0).result
          = .error ("failed to fetch ISP metrics: "
              ++ "API request failed with status 500: server error")
      ∧ runLoop decodeFail brokerDown now0
            (.tick (.ok 500 ("server error")) now0 :: [])
          = (fetchAndPublishMetrics ⟨false⟩ (.ok 500 ("server error")) decodeFail
              brokerDown now0 now0
              :: (runLoop decodeFail brokerDown now0 []).1,
             (runLoop decodeFail brokerDown now0 []).2)
      ∧ (∀ status body, status ≠ 200 →
          GetISPMetrics ⟨false⟩ (.ok status body) decodeFail
            = .error ("API request failed with status "
                ++ toString status ++ ": " ++ body))
      ∧ (∀ msg, GetISPMetrics ⟨false⟩ (.err msg) decodeFail
          = .error ("failed to make request: " ++ msg))
      ∧ (∀ body, decodeFail body = none →
          GetISPMetrics ⟨false⟩ (.ok 200 body) decodeFail
            = .error ("failed to decode response"))) :=
  ⟨rfl, fetch_failure_zero_publishes (.ok 500 ("server error")) decodeFail
    brokerDown now0 now0 [] ("API request failed with status 500: server error") rfl⟩

/-- Claim C9: once fetch and decode succeed, fetchAndPublishMetrics
reports success carrying the extracted-record count, whatever the
broker answers — per-record publish failures never reach the
scheduler. -/
theorem cycle_success_despite_publish_failures (ctx : Ctx)
    (transport : DoResult) (decode : String → Option ISPMetrics)
    (broker brokerOther : PublishCall → Bool) (baseTopic now : String)
    (metrics : ISPMetrics)
    (hok : GetISPMetrics ctx transport decode = .ok metrics) :
    (fetchAndPublishMetrics ctx transport decode broker baseTopic now).result
      = .ok (extractLatestLatencyMetrics metrics now).length
    ∧ (fetchAndPublishMetrics ctx transport decode broker baseTopic now).result
      = (fetchAndPublishMetrics ctx transport decode brokerOther baseTopic now).result := by
  constructor <;> simp [fetchAndPublishMetrics, hok]

/-- Claim C9 witness: with every publish rejected by brokerDown, the
cycle over envDup still reports success with the extracted count. -/
theorem cycle_success_despite_publish_failures_witness :
    GetISPMetrics ⟨false⟩ (.ok 200 ("")) decodeDup = .ok envDup
    ∧ ((fetchAndPublishMetrics ⟨false⟩ (.ok 200 ("")) decodeDup brokerDown
          now0 now0).result
        = .ok (extractLatestLatencyMetrics envDup now0).length
      ∧ (fetchAndPublishMetrics ⟨false⟩ (.ok 200 ("")) decodeDup brokerDown
          now0 now0).result
        = (fetchAndPublishMetrics ⟨false⟩ (.ok 200 ("")) decodeDup brokerUp
            now0 now0).result) :=
  ⟨rfl, cycle_success_despite_publish_failures ⟨false⟩ (.ok 200 ("")) decodeDup
    brokerDown brokerUp now0 now0 envDup rfl⟩

/-- Claim C3 counterexample: the fetch is built with the application
context (http.NewRequestWithContext, main.go line 268), so its outcome
does change when the shutdown signal cancels that context while the
request is in flight — against the same transport outcome the
cancelled context yields an error where the live one yields the
envelope. -/
theorem shutdown_cancels_inflight_fetch :
    GetISPMetrics ⟨true⟩ (.ok 200 ("")) decodeDup
      ≠ GetISPMetrics ⟨false⟩ (.ok 200 ("")) decodeDup := by
  intro h
  simp [GetISPMetrics, httpDo, decodeDup] at h

/-- Claim C3 amended: shutdown never affects in-flight publish calls
(the publish loop is independent of the context), and the scheduler
observes shutdown only at its wait point — a shutdown event ends the
loop with a disconnect, and a cycle started before shutdown runs to
completion first; the in-flight fetch, however, carries the cancellable
request context and aborts with a context-cancelled error once the
context is cancelled. -/
theorem shutdown_between_cycles_only (ctx ctxB : Ctx)
    (broker : PublishCall → Bool) (baseTopic : String)
    (ms : List LatencyMetric) (decode : String → Option ISPMetrics)
    (transport : DoResult) (now : String) (evs : List Event) :
    publishLoop ctx broker baseTopic ms = publishLoop ctxB broker baseTopic ms
    ∧ runLoop decode broker baseTopic (.shutdown :: evs) = ([], true)
    ∧ runLoop decode broker baseTopic (.tick transport now :: .shutdown :: evs)
        = ([fetchAndPublishMetrics ⟨false⟩ transport decode broker baseTopic now],
           true)
    ∧ GetISPMetrics ⟨true⟩ transport decode
        = .error ("failed to make request: context canceled") := by
  refine ⟨?_, rfl, rfl, rfl⟩
  induction ms with
  | nil => rfl
  | cons m rest ih => simp [publishLoop, ih]
